import Mathlib

/-!
# Verification of the boardLease interval-arithmetic core

Shallow embedding of the date-range functions of `src/lib/leaseLibrary.js`:
`dateRangeOverlaps`, `checkAvailabibility`, `compareDateRanges` and
`dateRangeSplitter`.

Dates live in JavaScript as values whose `new Date(x).getTime()` is either a
finite millisecond timestamp (modelled as `Int`) or `NaN` (modelled as `none`):
the type `JSNum := Option Int` captures this, with every comparison involving
`NaN` evaluating to `false`, exactly as in IEEE/JS semantics.

A record field may be absent or falsy (`missing`), a truthy value that does not
parse to a date (`unparseable`), a Date object or parseable string with
timestamp `t` (`date t`), or a raw JS number left behind by the in-place
normalization the overlap check performs (`num x`).  `dateRangeOverlaps`
mutates its two arguments; this effect is modelled by returning the two
updated records next to the boolean result.
-/

namespace BoardLease

/-- JavaScript numeric date values: `none` is `NaN`. -/
abbrev JSNum := Option Int

/-- JS `<` on date values: any comparison with `NaN` is false. -/
def jslt : JSNum → JSNum → Bool
  | some a, some b => decide (a < b)
  | _, _ => false

/-- JS `<=` on date values: any comparison with `NaN` is false. -/
def jsle : JSNum → JSNum → Bool
  | some a, some b => decide (a ≤ b)
  | _, _ => false

/-- JS `>` on date values. -/
def jsgt (a b : JSNum) : Bool := jslt b a

/-- JS `>=` on date values. -/
def jsge (a b : JSNum) : Bool := jsle b a

/-- JS `==` on date values: `NaN == NaN` is false. -/
def jseq : JSNum → JSNum → Bool
  | some a, some b => decide (a = b)
  | _, _ => false

/-- JS addition of a numeric constant: `NaN` propagates. -/
def jsadd : JSNum → Int → JSNum
  | some a, d => some (a + d)
  | none, _ => none

/-- JS subtraction of two date values: `NaN` propagates. -/
def jssub : JSNum → JSNum → JSNum
  | some a, some b => some (a - b)
  | _, _ => none

/-- JS `isNaN`. -/
def jsIsNaN : JSNum → Bool
  | none => true
  | some _ => false

/-- A value stored in a `startDate`/`endDate` field of a date-range object. -/
inductive DateField where
  /-- absent or falsy field (`undefined`, empty string, ...) -/
  | missing : DateField
  /-- truthy value that does not parse to a date: `getTime()` is `NaN` -/
  | unparseable : DateField
  /-- Date object or parseable string with millisecond timestamp `t` -/
  | date (t : Int) : DateField
  /-- raw JS number (result of a previous `getTime()` normalization) -/
  | num (x : JSNum) : DateField
deriving DecidableEq

/-- `new Date(field).getTime()`. -/
def DateField.getTime : DateField → JSNum
  | .missing => none
  | .unparseable => none
  | .date t => some t
  | .num x => x

/-- JS truthiness of the field value: `undefined`, `0` and `NaN` are falsy. -/
def DateField.truthy : DateField → Bool
  | .missing => false
  | .unparseable => true
  | .date _ => true
  | .num (some x) => decide (x ≠ 0)
  | .num none => false

/-- `new Date(ms)` for a numeric argument: `NaN` yields an Invalid Date. -/
def newDate : JSNum → DateField
  | some t => .date t
  | none => .unparseable

/-- `new Date(field)` for an arbitrary field value. -/
def newDateOf (f : DateField) : DateField := newDate f.getTime

/-- The `{startDate, endDate}` record. -/
structure DateRange where
  startDate : DateField
  endDate : DateField
deriving DecidableEq

/-- `dateRangeOverlaps(dateRange1, dateRange2)` from `src/lib/leaseLibrary.js`.
The source first overwrites the four fields with
`new Date(field).getTime()` (in-place mutation), then returns `true` as soon
as one of three conditions on the normalized numbers holds.  The mutation is
modelled by returning the two updated records next to the boolean result. -/
def dateRangeOverlaps (dateRange1 dateRange2 : DateRange) :
    Bool × DateRange × DateRange :=
  let s1 := dateRange1.startDate.getTime
  let e1 := dateRange1.endDate.getTime
  let s2 := dateRange2.startDate.getTime
  let e2 := dateRange2.endDate.getTime
  let dateRange1mut : DateRange := ⟨.num s1, .num e1⟩
  let dateRange2mut : DateRange := ⟨.num s2, .num e2⟩
  let result : Bool :=
    (jsle s1 s2 && jsle s2 e1)      -- dateRange2 starts in dateRange1
    || (jsle s1 e2 && jsle e2 e1)   -- dateRange2 ends in dateRange1
    || (jslt s2 s1 && jslt e1 e2)   -- dateRange2 includes dateRange1
  (result, dateRange1mut, dateRange2mut)

@[simp] theorem getTime_num (x : JSNum) : DateField.getTime (.num x) = x := rfl

@[simp] theorem getTime_date (t : Int) : DateField.getTime (.date t) = some t := rfl

@[simp] theorem dateRangeOverlaps_fst (a b : DateRange) :
    (dateRangeOverlaps a b).1 =
      ((jsle a.startDate.getTime b.startDate.getTime
          && jsle b.startDate.getTime a.endDate.getTime)
        || (jsle a.startDate.getTime b.endDate.getTime
          && jsle b.endDate.getTime a.endDate.getTime)
        || (jslt b.startDate.getTime a.startDate.getTime
          && jslt a.endDate.getTime b.endDate.getTime)) := rfl

@[simp] theorem dateRangeOverlaps_mut1 (a b : DateRange) :
    (dateRangeOverlaps a b).2.1 =
      ⟨.num a.startDate.getTime, .num a.endDate.getTime⟩ := rfl

@[simp] theorem dateRangeOverlaps_mut2 (a b : DateRange) :
    (dateRangeOverlaps a b).2.2 =
      ⟨.num b.startDate.getTime, .num b.endDate.getTime⟩ := rfl

@[simp] theorem jslt_some (a b : Int) : jslt (some a) (some b) = decide (a < b) := rfl
@[simp] theorem jsle_some (a b : Int) : jsle (some a) (some b) = decide (a ≤ b) := rfl
@[simp] theorem jseq_some (a b : Int) : jseq (some a) (some b) = decide (a = b) := rfl
@[simp] theorem jsadd_some (a d : Int) : jsadd (some a) d = some (a + d) := rfl
@[simp] theorem jssub_some (a b : Int) : jssub (some a) (some b) = some (a - b) := rfl
@[simp] theorem jsIsNaN_some (a : Int) : jsIsNaN (some a) = false := rfl
@[simp] theorem jsIsNaN_none : jsIsNaN none = true := rfl
@[simp] theorem jslt_none_left (b : JSNum) : jslt none b = false := rfl
@[simp] theorem jsle_none_left (b : JSNum) : jsle none b = false := rfl
@[simp] theorem jslt_none_right (a : JSNum) : jslt a none = false := by cases a <;> rfl
@[simp] theorem jsle_none_right (a : JSNum) : jsle a none = false := by cases a <;> rfl
@[simp] theorem jsgt_def (a b : JSNum) : jsgt a b = jslt b a := rfl
@[simp] theorem jsge_def (a b : JSNum) : jsge a b = jsle b a := rfl
@[simp] theorem jsadd_none (d : Int) : jsadd none d = none := rfl
@[simp] theorem newDate_some (t : Int) : newDate (some t) = .date t := rfl
@[simp] theorem newDate_none : newDate none = .unparseable := rfl
@[simp] theorem newDateOf_def (f : DateField) : newDateOf f = newDate f.getTime := rfl

/-- Loop body of `checkAvailabibility`: walks the array keeping the current
loop index; each iteration calls `dateRangeOverlaps(dr, dateRange)`, whose
in-place normalization of `dateRange` is threaded to the next iteration.
On a hit the source returns `dateRangeArray.indexOf(dr)`, which under JS
reference equality is exactly the current loop position. -/
def checkAvailAux : List DateRange → DateRange → Nat → Int
  | [], _, _ => -1
  | dr :: rest, dateRange, i =>
    let ov := dateRangeOverlaps dr dateRange
    if ov.1 then (i : Int) else checkAvailAux rest ov.2.2 (i + 1)

/-- `checkAvailabibility(dateRangeArray, dateRange)` from
`src/lib/leaseLibrary.js`: index of the first overlapping element, `-1` when
none overlaps. -/
def checkAvailabibility (dateRangeArray : List DateRange) (dateRange : DateRange) : Int :=
  checkAvailAux dateRangeArray dateRange 0

/-- `compareDateRanges(dr1, dr2)` from `src/lib/leaseLibrary.js`: `none`
models the JS `null` "not comparable" marker, otherwise the result compares
the two durations `endDate − startDate`. -/
def compareDateRanges (dr1 dr2 : DateRange) : Option Int :=
  if !dr1.startDate.truthy || !dr1.endDate.truthy
      || !dr2.startDate.truthy || !dr2.endDate.truthy then
    none
  else
    let aStart := dr1.startDate.getTime
    let aEnd := dr1.endDate.getTime
    let bStart := dr2.startDate.getTime
    let bEnd := dr2.endDate.getTime
    if jslt (jssub aEnd aStart) (jssub bEnd bStart) then some (-1)
    else if jsgt (jssub aEnd aStart) (jssub bEnd bStart) then some 1
    else some 0

/-- `DAY_IN_MS` from `dateRangeSplitter`. -/
def DAY_IN_MS : Int := 1000 * 60 * 60 * 24

/-- `dateRangeSplitter(dateRangeToSplit, dateRangeToWithdraw)` from
`src/lib/leaseLibrary.js`.

The JS function returns an array (`[]`, `[null]`, `[r]` or `[r1, r2]`), and
falls off the end of the function body — returning `undefined` — when the
branch-1 `if`/`else if` chain matches no case.  The result type is therefore
`Option (List (Option DateRange))`, `none` modelling the implicit
`undefined` and `some [none]` modelling `[null]`.

The overlap precondition check calls `dateRangeOverlaps`, which overwrites
the four fields of both arguments with their numeric timestamps; every later
`new Date(field).getTime()` in the source reads those mutated fields, so the
body below works on the mutated records `split`/`withdraw`. -/
def dateRangeSplitter (dateRangeToSplit dateRangeToWithdraw : DateRange) :
    Option (List (Option DateRange)) :=
  -- security checklist: missing (falsy) fields
  if !dateRangeToSplit.startDate.truthy || !dateRangeToSplit.endDate.truthy
      || !dateRangeToWithdraw.startDate.truthy || !dateRangeToWithdraw.endDate.truthy then
    some []
  else
    let ov := dateRangeOverlaps dateRangeToSplit dateRangeToWithdraw
    let split := ov.2.1
    let withdraw := ov.2.2
    -- double check if dateRanges overlap
    if !ov.1 then some []
    -- check if startDate is not superior to endDate
    else if jsgt withdraw.startDate.getTime withdraw.endDate.getTime then some []
    -- check if malformed parameters
    else if jsIsNaN withdraw.startDate.getTime || jsIsNaN withdraw.endDate.getTime
        || jsIsNaN split.startDate.getTime || jsIsNaN split.endDate.getTime then some []
    -- branch 1: one or two boundaries of withdraw are outside of split
    else if jslt withdraw.startDate.getTime split.startDate.getTime
        || jsgt withdraw.endDate.getTime (jsadd split.endDate.getTime DAY_IN_MS) then
      -- out-of-boundary case 1: withdraw starts before and ends within split
      if jslt withdraw.startDate.getTime split.startDate.getTime
          && jsle withdraw.endDate.getTime split.endDate.getTime then
        some [some ⟨newDate (jsadd withdraw.endDate.getTime DAY_IN_MS),
                    newDate split.endDate.getTime⟩]
      -- out-of-boundary case 2: withdraw starts within split and ends after it
      else if jsge withdraw.startDate.getTime split.startDate.getTime
          && jsle withdraw.startDate.getTime split.endDate.getTime
          && jsgt withdraw.endDate.getTime split.endDate.getTime then
        some [some ⟨newDate split.startDate.getTime,
                    newDate (jsadd withdraw.startDate.getTime (-DAY_IN_MS))⟩]
      -- out-of-boundary case 3: withdraw starts before and ends after split
      else if jslt withdraw.startDate.getTime split.startDate.getTime
          && jsgt withdraw.endDate.getTime split.endDate.getTime then
        some [some ⟨newDateOf split.startDate, newDateOf split.endDate⟩]
      -- no case matched: control falls off the end of the JS function
      else
        none
    -- branch 2: boundaries of withdraw are inside of split
    else
      -- within-boundaries case 1: withdraw equals split
      if jseq withdraw.startDate.getTime split.startDate.getTime
          && jseq withdraw.endDate.getTime split.endDate.getTime then
        some [none]
      -- within-boundaries case 2: same start
      else if jseq withdraw.startDate.getTime split.startDate.getTime then
        some [some ⟨newDate (jsadd withdraw.endDate.getTime DAY_IN_MS),
                    newDate split.endDate.getTime⟩]
      -- within-boundaries case 3: same end
      else if jseq withdraw.endDate.getTime split.endDate.getTime then
        some [some ⟨newDate split.startDate.getTime,
                    newDate (jsadd withdraw.startDate.getTime (-DAY_IN_MS))⟩]
      -- within-boundaries case 4: withdraw is in the middle of split
      else
        some [some ⟨newDateOf split.startDate,
                    newDate (jsadd withdraw.startDate.getTime (-DAY_IN_MS))⟩,
              some ⟨newDate (jsadd withdraw.endDate.getTime DAY_IN_MS),
                    newDateOf split.endDate⟩]

@[simp] theorem DateRange_mk_startDate (a b : DateField) :
    (DateRange.mk a b).startDate = a := rfl

@[simp] theorem DateRange_mk_endDate (a b : DateField) :
    (DateRange.mk a b).endDate = b := rfl

set_option maxHeartbeats 1000000 in
/-- Characterization of `dateRangeSplitter` on inputs whose four fields are
truthy and parse to the timestamps `s`, `e`, `ws`, `we`: the whole function
collapses to integer arithmetic on the four boundaries. -/
theorem dateRangeSplitter_valid_eq (A B : DateRange) (s e ws we : Int)
    (hts : A.startDate.truthy = true) (hte : A.endDate.truthy = true)
    (htws : B.startDate.truthy = true) (htwe : B.endDate.truthy = true)
    (hs : A.startDate.getTime = some s) (he : A.endDate.getTime = some e)
    (hws : B.startDate.getTime = some ws) (hwe : B.endDate.getTime = some we) :
    dateRangeSplitter A B =
      if (s ≤ ws ∧ ws ≤ e) ∨ (s ≤ we ∧ we ≤ e) ∨ (ws < s ∧ e < we) then
        if we < ws then some []
        else if ws < s ∨ e + 86400000 < we then
          if ws < s ∧ we ≤ e then
            some [some ⟨.date (we + 86400000), .date e⟩]
          else if s ≤ ws ∧ ws ≤ e ∧ e < we then
            some [some ⟨.date s, .date (ws - 86400000)⟩]
          else if ws < s ∧ e < we then
            some [some ⟨.date s, .date e⟩]
          else none
        else if ws = s ∧ we = e then some [none]
        else if ws = s then some [some ⟨.date (we + 86400000), .date e⟩]
        else if we = e then some [some ⟨.date s, .date (ws - 86400000)⟩]
        else some [some ⟨.date s, .date (ws - 86400000)⟩,
                   some ⟨.date (we + 86400000), .date e⟩]
      else some [] := by
  unfold dateRangeSplitter DAY_IN_MS
  simp only [dateRangeOverlaps_fst, dateRangeOverlaps_mut1, dateRangeOverlaps_mut2,
    DateRange_mk_startDate, DateRange_mk_endDate, getTime_num, hs, he, hws, hwe,
    hts, hte, htws, htwe, jslt_some, jsle_some, jseq_some, jsgt_def, jsge_def,
    jsadd_some, jsIsNaN_some, newDate_some, newDateOf_def, Bool.not_true,
    Bool.or_self, Bool.false_or, Bool.or_false]
  simp only [Bool.false_eq_true, if_false, Bool.not_eq_true', Bool.or_eq_true,
    Bool.and_eq_true, decide_eq_true_eq, Bool.or_eq_false_iff,
    Bool.and_eq_false_iff, decide_eq_false_iff_not]
  norm_num
  split_ifs <;> first | rfl | omega

/-!
## Claim theorems
-/

/-- C10: every call to `dateRangeOverlaps` overwrites the `startDate` and
`endDate` fields of both input records with their numeric millisecond
timestamps (the observable in-place mutation), and the result carries no
other state change: the output state is exactly the two normalized records
next to the boolean. -/
theorem dateRangeOverlaps_mutates_inputs (A B : DateRange) :
    (dateRangeOverlaps A B).2.1 =
      { startDate := .num A.startDate.getTime, endDate := .num A.endDate.getTime } ∧
    (dateRangeOverlaps A B).2.2 =
      { startDate := .num B.startDate.getTime, endDate := .num B.endDate.getTime } :=
  ⟨rfl, rfl⟩

/-- C5: the overlap predicate is not symmetric: there are two ranges, all
four fields parsing to valid instants, on which `dateRangeOverlaps` gives
different answers in the two argument orders. -/
theorem dateRangeOverlaps_asymmetric :
    ∃ A B : DateRange,
      (A.startDate.getTime).isSome = true ∧ (A.endDate.getTime).isSome = true ∧
      (B.startDate.getTime).isSome = true ∧ (B.endDate.getTime).isSome = true ∧
      (dateRangeOverlaps A B).1 ≠ (dateRangeOverlaps B A).1 := by
  refine ⟨⟨.date 10, .date 0⟩, ⟨.date 5, .date 5⟩, ?_, ?_, ?_, ?_, ?_⟩ <;> decide

/-- C7 counterexample: an input pair with a present (truthy) but unparseable
field on which `dateRangeOverlaps` returns `true`, not `false`: the
unparseable `startDate` of the second range takes part in no comparison of
the second condition, which fires on the valid `endDate` alone. -/
theorem rangesOverlap_unparseable_cex :
    DateField.truthy .unparseable = true ∧
    DateField.getTime .unparseable = none ∧
    (dateRangeOverlaps ⟨.date 0, .date 10⟩ ⟨.unparseable, .date 5⟩).1 = true := by
  decide

/-- C7 amended: an unparseable field in the FIRST range, or both fields of
the second range unparseable, forces `dateRangeOverlaps` to return `false`
(fail closed, no exception); a single unparseable field of the second range
does not. -/
theorem rangesOverlap_unparseable_fail_closed (A B : DateRange)
    (h : A.startDate.getTime = none ∨ A.endDate.getTime = none ∨
      (B.startDate.getTime = none ∧ B.endDate.getTime = none)) :
    (dateRangeOverlaps A B).1 = false := by
  simp only [dateRangeOverlaps_fst]
  rcases h with h | h | ⟨h1, h2⟩
  · simp [h]
  · simp [h]
  · simp [h1, h2]

/-- C7 amended, witness: the fail-closed direction at a concrete input. -/
theorem rangesOverlap_unparseable_fail_closed_witness :
    (dateRangeOverlaps ⟨.unparseable, .date 5⟩ ⟨.date 0, .date 10⟩).1 = false :=
  rangesOverlap_unparseable_fail_closed ⟨.unparseable, .date 5⟩ ⟨.date 0, .date 10⟩
    (Or.inl rfl)

/-- C9: when all four fields are present (truthy) but none parses to a valid
instant, `compareDateRanges` reports the durations as equal (`some 0`) —
both derived durations are `NaN` and both strict comparisons evaluate false
— instead of returning the `none` "not comparable" marker; the marker is
returned only when a field is missing (falsy). -/
theorem compareDateRanges_all_unparseable (A B : DateRange)
    (h1 : A.startDate.truthy = true) (h2 : A.endDate.truthy = true)
    (h3 : B.startDate.truthy = true) (h4 : B.endDate.truthy = true)
    (g1 : A.startDate.getTime = none) (g2 : A.endDate.getTime = none)
    (g3 : B.startDate.getTime = none) (g4 : B.endDate.getTime = none) :
    compareDateRanges A B = some 0 ∧
      (∀ X Y : DateRange, compareDateRanges X Y = none →
        (X.startDate.truthy && X.endDate.truthy
          && Y.startDate.truthy && Y.endDate.truthy) = false) := by
  constructor
  · unfold compareDateRanges
    simp [h1, h2, h3, h4, g1, g2, g3, g4, jssub]
  · intro X Y hXY
    cases hb : (X.startDate.truthy && X.endDate.truthy
        && Y.startDate.truthy && Y.endDate.truthy)
    · rfl
    · exfalso
      simp only [Bool.and_eq_true] at hb
      obtain ⟨⟨⟨hx, hy⟩, hz⟩, hw⟩ := hb
      unfold compareDateRanges at hXY
      rw [hx, hy, hz, hw] at hXY
      simp at hXY
      split_ifs at hXY

/-- C9 witness. -/
theorem compareDateRanges_all_unparseable_witness :
    compareDateRanges ⟨.unparseable, .unparseable⟩ ⟨.unparseable, .unparseable⟩ = some 0 :=
  (compareDateRanges_all_unparseable ⟨.unparseable, .unparseable⟩
    ⟨.unparseable, .unparseable⟩ rfl rfl rfl rfl rfl rfl rfl rfl).1

/-- C1: when `withdraw` starts strictly before `split.startDate` and ends
strictly after `split.endDate` (full superset withdrawal), the result is a
single-element sequence holding a range with the same boundaries as the
original `split`, unchanged. -/
theorem dateRangeSplitter_superset_unchanged (A B : DateRange) (s e ws we : Int)
    (hts : A.startDate.truthy = true) (hte : A.endDate.truthy = true)
    (htws : B.startDate.truthy = true) (htwe : B.endDate.truthy = true)
    (hs : A.startDate.getTime = some s) (he : A.endDate.getTime = some e)
    (hws : B.startDate.getTime = some ws) (hwe : B.endDate.getTime = some we)
    (hord : s ≤ e) (hlt : ws < s) (hgt : e < we) :
    dateRangeSplitter A B = some [some ⟨.date s, .date e⟩] := by
  rw [dateRangeSplitter_valid_eq A B s e ws we hts hte htws htwe hs he hws hwe]
  split_ifs <;> first | rfl | (exfalso; omega)

/-- C1 witness. -/
theorem dateRangeSplitter_superset_unchanged_witness :
    dateRangeSplitter ⟨.date 0, .date 10⟩ ⟨.date (-5), .date 20⟩ =
      some [some ⟨.date 0, .date 10⟩] :=
  dateRangeSplitter_superset_unchanged ⟨.date 0, .date 10⟩ ⟨.date (-5), .date 20⟩
    0 10 (-5) 20 rfl rfl rfl rfl rfl rfl rfl rfl (by decide) (by decide) (by decide)

/-- C3: when `withdraw` is strictly interior to `split` (and well ordered),
the result is exactly the two ranges `[split.start, withdraw.start − DAY]`
and `[withdraw.end + DAY, split.end]`, in that order, with
`DAY = 86400000` ms. -/
theorem dateRangeSplitter_interior_two_ranges (A B : DateRange) (s e ws we : Int)
    (hts : A.startDate.truthy = true) (hte : A.endDate.truthy = true)
    (htws : B.startDate.truthy = true) (htwe : B.endDate.truthy = true)
    (hs : A.startDate.getTime = some s) (he : A.endDate.getTime = some e)
    (hws : B.startDate.getTime = some ws) (hwe : B.endDate.getTime = some we)
    (hord : ws ≤ we) (h1 : s < ws) (h2 : we < e) :
    dateRangeSplitter A B =
      some [some ⟨.date s, .date (ws - 86400000)⟩,
            some ⟨.date (we + 86400000), .date e⟩] := by
  rw [dateRangeSplitter_valid_eq A B s e ws we hts hte htws htwe hs he hws hwe]
  split_ifs <;> first | rfl | (exfalso; omega)

/-- C3 witness: the spec example with day-granularity timestamps
`2024-01-01 = day 0`: withdrawing days 3..5 from days 0..9 leaves
days 0..2 and days 6..9. -/
theorem dateRangeSplitter_interior_two_ranges_witness :
    dateRangeSplitter
        ⟨.date 0, .date (9 * 86400000)⟩
        ⟨.date (3 * 86400000), .date (5 * 86400000)⟩ =
      some [some ⟨.date 0, .date (3 * 86400000 - 86400000)⟩,
            some ⟨.date (5 * 86400000 + 86400000), .date (9 * 86400000)⟩] :=
  dateRangeSplitter_interior_two_ranges
    ⟨.date 0, .date (9 * 86400000)⟩ ⟨.date (3 * 86400000), .date (5 * 86400000)⟩
    0 (9 * 86400000) (3 * 86400000) (5 * 86400000)
    rfl rfl rfl rfl rfl rfl rfl rfl (by decide) (by decide) (by decide)

/-- C4: when `withdraw` exactly equals `split`, the result is the sequence
holding exactly one null marker, and it differs from the empty sequence. -/
theorem dateRangeSplitter_equal_null_marker (A B : DateRange) (s e : Int)
    (hts : A.startDate.truthy = true) (hte : A.endDate.truthy = true)
    (htws : B.startDate.truthy = true) (htwe : B.endDate.truthy = true)
    (hs : A.startDate.getTime = some s) (he : A.endDate.getTime = some e)
    (hws : B.startDate.getTime = some s) (hwe : B.endDate.getTime = some e)
    (hord : s ≤ e) :
    dateRangeSplitter A B = some [none] ∧ dateRangeSplitter A B ≠ some [] := by
  have h : dateRangeSplitter A B = some [none] := by
    rw [dateRangeSplitter_valid_eq A B s e s e hts hte htws htwe hs he hws hwe]
    split_ifs <;> first | rfl | (exfalso; omega)
  exact ⟨h, by rw [h]; simp⟩

/-- C4 witness. -/
theorem dateRangeSplitter_equal_null_marker_witness :
    dateRangeSplitter ⟨.date 0, .date (9 * 86400000)⟩ ⟨.date 0, .date (9 * 86400000)⟩ =
      some [none] :=
  (dateRangeSplitter_equal_null_marker
    ⟨.date 0, .date (9 * 86400000)⟩ ⟨.date 0, .date (9 * 86400000)⟩
    0 (9 * 86400000) rfl rfl rfl rfl rfl rfl rfl rfl (by decide)).1

/-- C6: a well-formed, overlapping, correctly ordered input pair on which
the splitter returns an inverted range: when `withdraw.startDate` equals
`split.startDate` and `withdraw.endDate` is exactly one day past
`split.endDate`, the branch-1 guard (strictly greater than
`split.end + DAY`) does not trigger, branch-2 case 2 applies, and the single
returned range runs from `split.endDate` plus two days down to
`split.endDate` — its startDate is strictly later than its endDate. -/
theorem dateRangeSplitter_inverted_range (A B : DateRange) (s e : Int)
    (hts : A.startDate.truthy = true) (hte : A.endDate.truthy = true)
    (htws : B.startDate.truthy = true) (htwe : B.endDate.truthy = true)
    (hs : A.startDate.getTime = some s) (he : A.endDate.getTime = some e)
    (hws : B.startDate.getTime = some s)
    (hwe : B.endDate.getTime = some (e + 86400000))
    (hord : s ≤ e) :
    dateRangeSplitter A B = some [some ⟨.date (e + 2 * 86400000), .date e⟩] ∧
      jsgt (DateField.date (e + 2 * 86400000)).getTime
        (DateField.date e).getTime = true := by
  constructor
  · have h : dateRangeSplitter A B =
        some [some ⟨.date (e + 86400000 + 86400000), .date e⟩] := by
      rw [dateRangeSplitter_valid_eq A B s e s (e + 86400000) hts hte htws htwe
        hs he hws hwe]
      split_ifs <;> first | rfl | (exfalso; omega)
    rw [show e + 2 * 86400000 = e + 86400000 + 86400000 by ring]
    exact h
  · simp only [getTime_date, jsgt_def, jslt_some, decide_eq_true_eq]
    omega

/-- C6 witness. -/
theorem dateRangeSplitter_inverted_range_witness :
    dateRangeSplitter ⟨.date 0, .date 0⟩ ⟨.date 0, .date 86400000⟩ =
      some [some ⟨.date (2 * 86400000), .date 0⟩] := by
  have h := (dateRangeSplitter_inverted_range ⟨.date 0, .date 0⟩
    ⟨.date 0, .date 86400000⟩ 0 0 rfl rfl rfl rfl rfl rfl rfl
    (by decide) (by decide)).1
  simpa using h

/-- Any unparseable (`NaN`) boundary makes `dateRangeSplitter` return the
empty sequence: either the overlap precondition already fails on the `NaN`,
or the explicit `isNaN` checklist entry fires. -/
theorem dateRangeSplitter_empty_of_nan (A B : DateRange)
    (h : A.startDate.getTime = none ∨ A.endDate.getTime = none ∨
         B.startDate.getTime = none ∨ B.endDate.getTime = none) :
    dateRangeSplitter A B = some [] := by
  unfold dateRangeSplitter
  rcases h with h | h | h | h <;> simp [h]

/-- Any missing (falsy) field makes `dateRangeSplitter` return the empty
sequence: the first checklist entry fires. -/
theorem dateRangeSplitter_empty_of_missing (A B : DateRange)
    (h : A.startDate.truthy = false ∨ A.endDate.truthy = false ∨
         B.startDate.truthy = false ∨ B.endDate.truthy = false) :
    dateRangeSplitter A B = some [] := by
  unfold dateRangeSplitter
  rcases h with h | h | h | h <;> simp [h]

/-- C2: on every input pair `dateRangeSplitter` returns a defined value (it
never falls off the end of the function, so no exception and no `undefined`)
of exactly one of the four shapes — empty, single null marker, one range,
two ranges — and each validation failure (missing field, non-overlap,
reversed withdraw, unparseable date) yields the empty sequence. -/
theorem dateRangeSplitter_closed_contract (A B : DateRange) :
    (∃ l, dateRangeSplitter A B = some l ∧
        (l = [] ∨ l = [none] ∨ (∃ r, l = [some r]) ∨
          ∃ r1 r2, l = [some r1, some r2])) ∧
      ((A.startDate.truthy && A.endDate.truthy && B.startDate.truthy
          && B.endDate.truthy) = false → dateRangeSplitter A B = some []) ∧
      ((dateRangeOverlaps A B).1 = false → dateRangeSplitter A B = some []) ∧
      (jsgt B.startDate.getTime B.endDate.getTime = true →
        dateRangeSplitter A B = some []) ∧
      ((A.startDate.getTime = none ∨ A.endDate.getTime = none ∨
          B.startDate.getTime = none ∨ B.endDate.getTime = none) →
        dateRangeSplitter A B = some []) := by
  refine ⟨?_, ?_, ?_, ?_, dateRangeSplitter_empty_of_nan A B⟩
  · rcases hA : A.startDate.getTime with _ | s
    · exact ⟨[], dateRangeSplitter_empty_of_nan A B (Or.inl hA), Or.inl rfl⟩
    rcases hA2 : A.endDate.getTime with _ | e
    · exact ⟨[], dateRangeSplitter_empty_of_nan A B (Or.inr (Or.inl hA2)), Or.inl rfl⟩
    rcases hB : B.startDate.getTime with _ | ws
    · exact ⟨[], dateRangeSplitter_empty_of_nan A B (Or.inr (Or.inr (Or.inl hB))),
        Or.inl rfl⟩
    rcases hB2 : B.endDate.getTime with _ | we
    · exact ⟨[], dateRangeSplitter_empty_of_nan A B (Or.inr (Or.inr (Or.inr hB2))),
        Or.inl rfl⟩
    cases ht1 : A.startDate.truthy
    · exact ⟨[], dateRangeSplitter_empty_of_missing A B (Or.inl ht1), Or.inl rfl⟩
    cases ht2 : A.endDate.truthy
    · exact ⟨[], dateRangeSplitter_empty_of_missing A B (Or.inr (Or.inl ht2)),
        Or.inl rfl⟩
    cases ht3 : B.startDate.truthy
    · exact ⟨[], dateRangeSplitter_empty_of_missing A B (Or.inr (Or.inr (Or.inl ht3))),
        Or.inl rfl⟩
    cases ht4 : B.endDate.truthy
    · exact ⟨[], dateRangeSplitter_empty_of_missing A B (Or.inr (Or.inr (Or.inr ht4))),
        Or.inl rfl⟩
    rw [dateRangeSplitter_valid_eq A B s e ws we ht1 ht2 ht3 ht4 hA hA2 hB hB2]
    split_ifs <;>
      first
        | exact ⟨[], rfl, Or.inl rfl⟩
        | exact ⟨[none], rfl, Or.inr (Or.inl rfl)⟩
        | exact ⟨_, rfl, Or.inr (Or.inr (Or.inl ⟨_, rfl⟩))⟩
        | exact ⟨_, rfl, Or.inr (Or.inr (Or.inr ⟨_, _, rfl⟩))⟩
        | (exfalso; omega)
  · intro h
    simp only [Bool.and_eq_false_iff] at h
    exact dateRangeSplitter_empty_of_missing A B (by tauto)
  · intro h
    unfold dateRangeSplitter
    simp only [h]
    simp
  · intro h
    unfold dateRangeSplitter
    simp only [jsgt_def] at h
    simp only [dateRangeOverlaps_mut1, dateRangeOverlaps_mut2,
      DateRange_mk_startDate, DateRange_mk_endDate, getTime_num, jsgt_def, h]
    simp

/-- C2 witness: the missing-field conjunct discharged at a concrete input. -/
theorem dateRangeSplitter_closed_contract_witness :
    dateRangeSplitter ⟨.missing, .missing⟩ ⟨.missing, .missing⟩ = some [] :=
  (dateRangeSplitter_closed_contract ⟨.missing, .missing⟩ ⟨.missing, .missing⟩).2.1 rfl

/-- The scan helper agrees with `List.findIdx?` started at index `i`: the
in-place normalization of the candidate range threaded through the loop
never changes an overlap verdict, because normalization preserves the four
`getTime` values. -/
theorem checkAvailAux_spec (l : List DateRange) (b : DateRange) (i : Nat) :
    checkAvailAux l b i =
      match l.findIdx? (fun r => (dateRangeOverlaps r b).1) i with
      | some j => (j : Int)
      | none => -1 := by
  induction l generalizing b i with
  | nil => rfl
  | cons dr rest ih =>
    have hstep : List.findIdx? (fun r => (dateRangeOverlaps r b).1) (dr :: rest) i =
        if (dateRangeOverlaps dr b).1 then some i
        else List.findIdx? (fun r => (dateRangeOverlaps r b).1) rest (i + 1) := by
      rw [List.findIdx?_cons]
    rw [hstep]
    simp only [checkAvailAux]
    by_cases h : (dateRangeOverlaps dr b).1 = true
    · rw [if_pos h, if_pos h]
    · rw [if_neg h, if_neg h, ih]
      rfl

/-- C8: `checkAvailabibility` returns the position of the first element of
the sequence that overlaps the candidate range per `dateRangeOverlaps` (so
no earlier element overlaps), and `-1` when no element overlaps — in
particular on the empty sequence. -/
theorem checkAvailabibility_first_overlap (l : List DateRange) (B : DateRange) :
    checkAvailabibility l B =
      match l.findIdx? (fun r => (dateRangeOverlaps r B).1) with
      | some i => (i : Int)
      | none => -1 :=
  checkAvailAux_spec l B 0

end BoardLease
